import Mathlib

/-!
Verification of the powerwall2mqtt decision engine ("controller").

The repository's `controller.go` contains two variants of the controller,
separated in the source file by a document marker:

* Variant `V1` (first half of controller.go): strategies
  unknown/solar/full-speed/off-peak, a configurable peak-rate window
  (`peakRatesStartMinute`/`peakRatesEndMinute`), a `Reporter`, and a dispatch
  clamp to `[0, volts*maxAmps]`.
* Variant `V2` (second half of controller.go): strategies
  unknown/auto/full-speed/overnight, an EV-battery-level hint rule, and a
  dispatch clamp with only an upper bound (no clamp of negative budgets).

Embedding conventions:
* Go `float64` sensor readings are embedded as `Int` (the decision logic only
  compares them with integer constants and truncates them to `int32`; on
  integral readings the embedding is exact).
* Go `int32` arithmetic appears only as the `int32(...)` conversion of a
  sensor reading and as the `math.MaxInt32` / `math.MinInt32` sentinels; the
  conversion is embedded as two's-complement wrapping into the int32 range
  (`i32`), which agrees with Go on every in-range value.
* The `observedValues` bitmask is a `Nat`; the bit constants are the exact
  values produced by Go's `1 << iota`.
* `time.Now()` is passed explicitly: the wall-clock hour (and minute, in the
  variant that uses it) is a parameter of the decision function.
* `singleLoop` is modelled by its externally visible effect: either it takes
  no action and returns nil (`LoopAction.noAction`, the insufficient-data
  path), or it invokes the injected `setEcoPowerLimit` callback with the
  clamped wattage (`LoopAction.dispatch`).
-/

/-- Go `Temperature int64`, in deci-Celsius. It is an alias of `Int` (written
`Int` below so that arithmetic automation sees the underlying type). -/
abbrev Temperature := Int

/-- `maxAmps = 40` from controller.go. -/
def maxAmps : Int := 40

/-- `minAmps = 8` from controller.go. -/
def minAmps : Int := 8

/-- `volts = 240` from controller.go. -/
def volts : Int := 240

/-- `minSitePowerW = -100000` from controller.go: the not-enough-data floor. -/
def minSitePowerW : Int := -100000

/-- Go `math.MaxInt32`. -/
def maxInt32 : Int := 2147483647

/-- Go `math.MinInt32`: the insufficient-data sentinel. -/
def minInt32 : Int := -2147483648

/-- Go `int32(x)` conversion, embedded as two's-complement wrapping into the
int32 range; agrees with Go on every value representable in int32 (the only
case for which Go defines the float-to-int conversion result). -/
def i32 (x : Int) : Int := (x + 2 ^ 31) % 2 ^ 32 - 2 ^ 31

/-- The `tempClamps` table from controller.go (identical in both variants):
(threshold temperature in deci-Celsius, maxAmps) pairs, hottest first. -/
def tempClamps : List (Int × Int) :=
  [(500, 8), (490, 12), (480, 16), (470, 24), (460, 32)]

/-- The loop body of `maxPowerForTemp`: return `volts * maxAmps` of the first
row whose threshold the temperature strictly exceeds, else fall through. -/
def maxPowerForTempAux : List (Int × Int) → Int → Int
  | [], _ => maxInt32
  | (t, a) :: rest, temp => if temp > t then volts * a else maxPowerForTempAux rest temp

/-- `maxPowerForTemp` from controller.go (identical in both variants): walk
`tempClamps` from hottest to coolest; the first threshold the temperature
strictly exceeds sets the ceiling; otherwise `math.MaxInt32`. -/
def maxPowerForTemp (temp : Int) : Int :=
  maxPowerForTempAux tempClamps temp

/-- `OperationMode`, modelled from the spec (its Go definition lives in the
Tesla-client file, which is not part of the decision core): operation mode is
self-consumption / autonomous / backup. The decision logic never inspects it;
it is only stored and compared for equality. -/
inductive OperationMode where
  | selfConsumption
  | autonomous
  | backup
deriving DecidableEq

/-- Result of one `updateSensor` call: the stored value afterwards, the
`seenValues` mask afterwards, and whether `cond.Signal()` was invoked. -/
structure UpdateResult (T : Type) where
  value : T
  seenValues : Nat
  signalled : Bool
deriving DecidableEq

/-- `updateSensor` from controller.go (identical in both variants): store the
new value and signal only if it differs from the old one; set the observed
bit unconditionally. -/
def updateSensor {T : Type} [DecidableEq T] (oldValue newValue : T)
    (seenValues obs : Nat) : UpdateResult T :=
  if oldValue ≠ newValue then
    { value := newValue, seenValues := seenValues ||| obs, signalled := true }
  else
    { value := oldValue, seenValues := seenValues ||| obs, signalled := false }

/-- The observed-value bit constants from controller.go (`1 << iota`,
identical in both variants). -/
def observedEVBattery : Nat := 1

/-- Bit for the exported-solar reading. -/
def observedExportedSolar : Nat := 2

/-- Bit for the exported-battery reading. -/
def observedBattery : Nat := 4

/-- Bit for the load-reduction flag. -/
def observedLR : Nat := 8

/-- Bit for the controller strategy. -/
def observedStrategy : Nat := 16

/-- Bit for the EVSE temperature. -/
def observedTemp : Nat := 32

/-- Bit for the site load reading. -/
def observedLoad : Nat := 64

/-- Bit for the solar production reading. -/
def observedSolar : Nat := 128

/-- Bit for the operation mode. -/
def observedOperationMode : Nat := 256

/-- Bit for the Powerwall battery level. -/
def observedBatteryLevel : Nat := 512

/-- Bit for the EVSE current. -/
def observedEVCurrent : Nat := 1024

/-- Bit for the EV-connected flag. -/
def observedEVConnected : Nat := 2048

/-- Externally visible effect of one `singleLoop` cycle: either the
insufficient-data path (no callback invoked, nil returned) or an invocation
of the injected `setEcoPowerLimit` callback with the given wattage. -/
inductive LoopAction where
  | noAction
  | dispatch (watts : Int)
deriving DecidableEq

namespace V1

/-- Strategy enum of the first controller variant. -/
inductive strategy where
  | strategyUnknown
  | strategySolar
  | strategyFullSpeed
  | strategyOffpeak
deriving DecidableEq

/-- Sensor snapshot and observed-set of the first controller variant
(controller.go, first half). The mutex, condition variable, reporter and
callback are concurrency/IO plumbing and are not part of the state the
decision function reads. -/
structure controller where
  seenValues : Nat
  pwBatteryLevelPercent : Int
  exportedBatteryW : Int
  exportedSolarW : Int
  solarW : Int
  loadW : Int
  operationMode : OperationMode
  temp : Int
  evseMilliAmp : Int
  evConnected : Bool
  loadReductionEnabled : Bool
  controllerStrategy : strategy
  peakRatesStartMinute : Int
  peakRatesEndMinute : Int
deriving DecidableEq

/-- The state produced by `NewController`: zero values everywhere, default
peak window 16:00-21:00 (960-1260 minutes). -/
def initController : controller where
  seenValues := 0
  pwBatteryLevelPercent := 0
  exportedBatteryW := 0
  exportedSolarW := 0
  solarW := 0
  loadW := 0
  operationMode := OperationMode.selfConsumption
  temp := 0
  evseMilliAmp := 0
  evConnected := false
  loadReductionEnabled := false
  controllerStrategy := strategy.strategyUnknown
  peakRatesStartMinute := 960
  peakRatesEndMinute := 1260

/-- `seen` from controller.go: every requested bit pattern is fully present
in `seenValues`. -/
def seen (c : controller) (checks : List Nat) : Bool :=
  checks.all fun check => c.seenValues &&& check == check

/-- `isOffPeak` from controller.go: true iff the minute-of-day is outside
`[peakRatesStartMinute, peakRatesEndMinute)`. -/
def isOffPeak (c : controller) (nowHour nowMinute : Int) : Bool :=
  let dayMinute := nowHour * 60 + nowMinute
  !(decide (dayMinute ≥ c.peakRatesStartMinute) && decide (dayMinute < c.peakRatesEndMinute))

/-- The temperature-clamped ceiling: the `maxPower` local of
`computeMaxPower` after the temperature step. -/
def ceiling (c : controller) : Int :=
  if seen c [observedTemp] then maxPowerForTemp c.temp else maxInt32

/-- `computeMaxPower` of the first variant, with `time.Now()` passed in as
hour and minute. -/
def computeMaxPower (c : controller) (nowHour nowMinute : Int) : Int :=
  if !seen c [observedStrategy] then
    minInt32
  else
    let maxPower := ceiling c
    if c.controllerStrategy = strategy.strategyFullSpeed then
      maxPower
    else if c.controllerStrategy = strategy.strategyOffpeak then
      if isOffPeak c nowHour nowMinute then maxPower else 0
    else if seen c [observedLR] && c.loadReductionEnabled then
      0
    else if seen c [observedBattery] && decide (c.exportedBatteryW > 200) then
      0
    else if seen c [observedExportedSolar] then
      if maxPower < i32 c.exportedSolarW then maxPower else i32 c.exportedSolarW
    else
      maxPower

/-- The output clamp of the first variant's `singleLoop`: upper clamp to
`volts * maxAmps`, then lower clamp to 0. -/
def clampBudget (maxPower : Int) : Int :=
  let m := if maxPower > volts * maxAmps then volts * maxAmps else maxPower
  if m < 0 then 0 else m

/-- `singleLoop` of the first variant (one wake-recompute cycle): below the
not-enough-data floor take no action and return nil, otherwise dispatch the
clamped budget to `setEcoPowerLimit`. -/
def singleLoop (c : controller) (nowHour nowMinute : Int) : LoopAction :=
  let maxPower := computeMaxPower c nowHour nowMinute
  if maxPower < minSitePowerW then
    LoopAction.noAction
  else
    LoopAction.dispatch (clampBudget maxPower)

/-- `SetPowerwallBatteryLevelPercent`: returns the new state and whether the
decision loop was signalled. -/
def SetPowerwallBatteryLevelPercent (c : controller) (batt : Int) : controller × Bool :=
  let r := updateSensor c.pwBatteryLevelPercent batt c.seenValues observedBatteryLevel
  ({ c with pwBatteryLevelPercent := r.value, seenValues := r.seenValues }, r.signalled)

/-- `SetExportedBatteryW`. -/
def SetExportedBatteryW (c : controller) (batteryW : Int) : controller × Bool :=
  let r := updateSensor c.exportedBatteryW batteryW c.seenValues observedBattery
  ({ c with exportedBatteryW := r.value, seenValues := r.seenValues }, r.signalled)

/-- `SetExportedSolarW`. -/
def SetExportedSolarW (c : controller) (solarW : Int) : controller × Bool :=
  let r := updateSensor c.exportedSolarW solarW c.seenValues observedExportedSolar
  ({ c with exportedSolarW := r.value, seenValues := r.seenValues }, r.signalled)

/-- `SetSolarW`. -/
def SetSolarW (c : controller) (solarW : Int) : controller × Bool :=
  let r := updateSensor c.solarW solarW c.seenValues observedSolar
  ({ c with solarW := r.value, seenValues := r.seenValues }, r.signalled)

/-- `SetLoadW`. Note: the source passes `observedOperationMode` as the
observed bit here. -/
def SetLoadW (c : controller) (loadW : Int) : controller × Bool :=
  let r := updateSensor c.loadW loadW c.seenValues observedOperationMode
  ({ c with loadW := r.value, seenValues := r.seenValues }, r.signalled)

/-- `SetOperationMode`. Note: the source passes `observedLoad` as the
observed bit here. -/
def SetOperationMode (c : controller) (operationMode : OperationMode) : controller × Bool :=
  let r := updateSensor c.operationMode operationMode c.seenValues observedLoad
  ({ c with operationMode := r.value, seenValues := r.seenValues }, r.signalled)

/-- `SetLoadReduction`. -/
def SetLoadReduction (c : controller) (enabled : Bool) : controller × Bool :=
  let r := updateSensor c.loadReductionEnabled enabled c.seenValues observedLR
  ({ c with loadReductionEnabled := r.value, seenValues := r.seenValues }, r.signalled)

/-- `SetControllerStrategy`. -/
def SetControllerStrategy (c : controller) (s : strategy) : controller × Bool :=
  let r := updateSensor c.controllerStrategy s c.seenValues observedStrategy
  ({ c with controllerStrategy := r.value, seenValues := r.seenValues }, r.signalled)

/-- `SetEVSETemp` (the reporter side effect is telemetry only). -/
def SetEVSETemp (c : controller) (temp : Int) : controller × Bool :=
  let r := updateSensor c.temp temp c.seenValues observedTemp
  ({ c with temp := r.value, seenValues := r.seenValues }, r.signalled)

/-- `SetEVSECurrent`. -/
def SetEVSECurrent (c : controller) (milliAmp : Int) : controller × Bool :=
  let r := updateSensor c.evseMilliAmp milliAmp c.seenValues observedEVCurrent
  ({ c with evseMilliAmp := r.value, seenValues := r.seenValues }, r.signalled)

/-- `SetEVConnected`. -/
def SetEVConnected (c : controller) (connected : Bool) : controller × Bool :=
  let r := updateSensor c.evConnected connected c.seenValues observedEVConnected
  ({ c with evConnected := r.value, seenValues := r.seenValues }, r.signalled)

/-- One setter invocation of the first variant, with its argument. -/
inductive Op where
  | opPowerwallBatteryLevelPercent (v : Int)
  | opExportedBatteryW (v : Int)
  | opExportedSolarW (v : Int)
  | opSolarW (v : Int)
  | opLoadW (v : Int)
  | opOperationMode (v : OperationMode)
  | opLoadReduction (v : Bool)
  | opControllerStrategy (v : strategy)
  | opEVSETemp (v : Int)
  | opEVSECurrent (v : Int)
  | opEVConnected (v : Bool)
deriving DecidableEq

/-- Run one setter on a state; returns the new state and whether the decision
loop was signalled. -/
def applyOp : Op → controller → controller × Bool
  | Op.opPowerwallBatteryLevelPercent v, c => SetPowerwallBatteryLevelPercent c v
  | Op.opExportedBatteryW v, c => SetExportedBatteryW c v
  | Op.opExportedSolarW v, c => SetExportedSolarW c v
  | Op.opSolarW v, c => SetSolarW c v
  | Op.opLoadW v, c => SetLoadW c v
  | Op.opOperationMode v, c => SetOperationMode c v
  | Op.opLoadReduction v, c => SetLoadReduction c v
  | Op.opControllerStrategy v, c => SetControllerStrategy c v
  | Op.opEVSETemp v, c => SetEVSETemp c v
  | Op.opEVSECurrent v, c => SetEVSECurrent c v
  | Op.opEVConnected v, c => SetEVConnected c v

/-- The observed bit each setter passes to `updateSensor` (exactly as in the
source, including the swapped bits of `SetLoadW` and `SetOperationMode`). -/
def opBit : Op → Nat
  | Op.opPowerwallBatteryLevelPercent _ => observedBatteryLevel
  | Op.opExportedBatteryW _ => observedBattery
  | Op.opExportedSolarW _ => observedExportedSolar
  | Op.opSolarW _ => observedSolar
  | Op.opLoadW _ => observedOperationMode
  | Op.opOperationMode _ => observedLoad
  | Op.opLoadReduction _ => observedLR
  | Op.opControllerStrategy _ => observedStrategy
  | Op.opEVSETemp _ => observedTemp
  | Op.opEVSECurrent _ => observedEVCurrent
  | Op.opEVConnected _ => observedEVConnected

/-- Whether the setter's argument equals the currently stored value of the
field it writes. -/
def opUnchanged : Op → controller → Bool
  | Op.opPowerwallBatteryLevelPercent v, c => decide (v = c.pwBatteryLevelPercent)
  | Op.opExportedBatteryW v, c => decide (v = c.exportedBatteryW)
  | Op.opExportedSolarW v, c => decide (v = c.exportedSolarW)
  | Op.opSolarW v, c => decide (v = c.solarW)
  | Op.opLoadW v, c => decide (v = c.loadW)
  | Op.opOperationMode v, c => decide (v = c.operationMode)
  | Op.opLoadReduction v, c => decide (v = c.loadReductionEnabled)
  | Op.opControllerStrategy v, c => decide (v = c.controllerStrategy)
  | Op.opEVSETemp v, c => decide (v = c.temp)
  | Op.opEVSECurrent v, c => decide (v = c.evseMilliAmp)
  | Op.opEVConnected v, c => decide (v = c.evConnected)

/-- Run a sequence of setter invocations, discarding the signal flags. -/
def applyOps (ops : List Op) (c : controller) : controller :=
  ops.foldl (fun s op => (applyOp op s).fst) c

end V1

namespace V2

/-- Strategy enum of the second controller variant. -/
inductive strategy where
  | strategyUnknown
  | strategyAuto
  | strategyFullSpeed
  | strategyOvernight
deriving DecidableEq

/-- Sensor snapshot and observed-set of the second controller variant
(controller.go, second half). -/
structure controller where
  seenValues : Nat
  evBatteryLevelPercent : Int
  pwBatteryLevelPercent : Int
  exportedBatteryW : Int
  exportedSolarW : Int
  solarW : Int
  loadW : Int
  operationMode : OperationMode
  temp : Int
  evseMilliAmp : Int
  evConnected : Bool
  loadReductionEnabled : Bool
  controllerStrategy : strategy
deriving DecidableEq

/-- The state produced by the second variant's `NewController`: zero values
everywhere. -/
def initController : controller where
  seenValues := 0
  evBatteryLevelPercent := 0
  pwBatteryLevelPercent := 0
  exportedBatteryW := 0
  exportedSolarW := 0
  solarW := 0
  loadW := 0
  operationMode := OperationMode.selfConsumption
  temp := 0
  evseMilliAmp := 0
  evConnected := false
  loadReductionEnabled := false
  controllerStrategy := strategy.strategyUnknown

/-- `seen` of the second variant. -/
def seen (c : controller) (checks : List Nat) : Bool :=
  checks.all fun check => c.seenValues &&& check == check

/-- The temperature-clamped ceiling of the second variant. -/
def ceiling (c : controller) : Int :=
  if seen c [observedTemp] then maxPowerForTemp c.temp else maxInt32

/-- `computeMaxPower` of the second variant, with `time.Now().Hour()` passed
in. -/
def computeMaxPower (c : controller) (nowHour : Int) : Int :=
  if !seen c [observedStrategy] then
    minInt32
  else
    let maxPower := ceiling c
    if c.controllerStrategy = strategy.strategyFullSpeed then
      maxPower
    else if c.controllerStrategy = strategy.strategyOvernight ∧ nowHour < 6 then
      maxPower
    else if seen c [observedLR] && c.loadReductionEnabled then
      0
    else if seen c [observedBattery] && decide (c.exportedBatteryW > 200) then
      0
    else if seen c [observedEVBattery] && decide (c.evBatteryLevelPercent < 60) then
      maxPower
    else if seen c [observedExportedSolar] then
      if maxPower < i32 c.exportedSolarW then maxPower else i32 c.exportedSolarW
    else
      maxPower

/-- The output clamp of the second variant's `singleLoop`: only the upper
clamp to `volts * maxAmps`; there is no clamp of negative budgets. -/
def clampBudget (maxPower : Int) : Int :=
  if maxPower > volts * maxAmps then volts * maxAmps else maxPower

/-- `singleLoop` of the second variant. -/
def singleLoop (c : controller) (nowHour : Int) : LoopAction :=
  let maxPower := computeMaxPower c nowHour
  if maxPower < minSitePowerW then
    LoopAction.noAction
  else
    LoopAction.dispatch (clampBudget maxPower)

end V2

section Claims

/-- C1: whenever the strategy field has never been observed, `computeMaxPower`
returns the insufficient-data sentinel `math.MinInt32` — strictly below the
not-enough-data floor `minSitePowerW` — regardless of every other sensor
field, and the decision cycle takes no action: `setEcoPowerLimit` is not
invoked and `singleLoop` returns nil. -/
theorem c1_cold_start_gating (c : V1.controller) (nowHour nowMinute : Int)
    (hs : V1.seen c [observedStrategy] = false) :
    V1.computeMaxPower c nowHour nowMinute = minInt32 ∧
    minInt32 < minSitePowerW ∧
    V1.singleLoop c nowHour nowMinute = LoopAction.noAction := by
  have hcmp : V1.computeMaxPower c nowHour nowMinute = minInt32 := by
    simp [V1.computeMaxPower, hs]
  refine ⟨hcmp, by decide, ?_⟩
  simp [V1.singleLoop, hcmp, minInt32, minSitePowerW]

/-- C1 witness: the fresh `NewController` state has no strategy observed, and
the theorem applies to it. -/
theorem c1_cold_start_gating_witness :
    V1.computeMaxPower V1.initController 12 30 = minInt32 ∧
    minInt32 < minSitePowerW ∧
    V1.singleLoop V1.initController 12 30 = LoopAction.noAction :=
  c1_cold_start_gating V1.initController 12 30 (by decide)

end Claims

/-- C6 counterexample: at exactly 50.0°C (500 deci-Celsius) the table walk
uses a strict comparison, so the 8 A row does not apply; the code yields the
12 A row, `volts * 12 = 2880` W, not the claimed `volts * 8 = 1920` W. -/
theorem c6_counterexample :
    maxPowerForTemp 500 = 2880 ∧ (2880 : Int) ≠ volts * 8 := by decide

/-- C6 amended: at a temperature exactly equal to a table threshold the walk
(strictly-greater semantics) applies the next cooler row: exactly 50.0°C →
12 A (2880 W), 49.0°C → 16 A (3840 W), 48.0°C → 24 A (5760 W), 47.0°C →
32 A (7680 W), and at exactly 46.0°C no row applies and the ceiling stays at
`math.MaxInt32`. -/
theorem c6_threshold_semantics :
    maxPowerForTemp 500 = volts * 12 ∧
    maxPowerForTemp 490 = volts * 16 ∧
    maxPowerForTemp 480 = volts * 24 ∧
    maxPowerForTemp 470 = volts * 32 ∧
    maxPowerForTemp 460 = maxInt32 := by decide

/-- C7: the temperature derate is monotone — for temperatures t1 < t2 both
strictly above the lowest table threshold (46.0°C = 460 deci-Celsius), the
ceiling at t2 is at most the ceiling at t1. -/
theorem c7_monotone_derate (t1 t2 : Int)
    (h1 : 460 < t1) (h12 : t1 < t2) :
    maxPowerForTemp t2 ≤ maxPowerForTemp t1 := by
  simp only [maxPowerForTemp, maxPowerForTempAux, tempClamps, volts, maxInt32]
  split_ifs <;> omega

/-- C7 witness: at t1 = 47.0°C and t2 = 50.5°C the derated ceilings are
ordered as the theorem states. -/
theorem c7_monotone_derate_witness :
    maxPowerForTemp 505 ≤ maxPowerForTemp 470 :=
  c7_monotone_derate 470 505 (by decide) (by decide)

/-- A second-variant state with strategy auto observed and a negative
exported-solar reading observed; every other field unobserved. -/
def cNegSolar : V2.controller :=
  { V2.initController with
    seenValues := observedStrategy ||| observedExportedSolar
    controllerStrategy := V2.strategy.strategyAuto
    exportedSolarW := -500 }

/-- C2 counterexample: the claim asserts the pre-dispatch clamp maps every
negative in-floor budget to exactly 0 in every variant of the decision loop,
but the second variant's `singleLoop` has no lower clamp: on `cNegSolar` the
raw budget is -500 W (not below the not-enough-data floor), and the cycle
dispatches -500 to `setEcoPowerLimit`, not 0. -/
theorem c2_counterexample :
    V2.computeMaxPower cNegSolar 12 = -500 ∧
    minSitePowerW ≤ -500 ∧
    V2.clampBudget (-500) = -500 ∧
    V2.singleLoop cNegSolar 12 = LoopAction.dispatch (-500) ∧
    ((-500 : Int) = 0 → False) := by decide

/-- C2 amended: for every raw budget not below the not-enough-data floor, the
first variant's clamp passes in-range values through, maps negatives to 0 and
caps values above `volts * maxAmps` at exactly `volts * maxAmps`; the second
variant's clamp has the same pass-through and upper cap but no lower clamp —
negative budgets are dispatched unchanged. -/
theorem c2_output_clamp (m : Int) (hfloor : minSitePowerW ≤ m) :
    (0 ≤ m → m ≤ volts * maxAmps → V1.clampBudget m = m ∧ V2.clampBudget m = m) ∧
    (m < 0 → V1.clampBudget m = 0 ∧ V2.clampBudget m = m) ∧
    (volts * maxAmps < m → V1.clampBudget m = volts * maxAmps ∧
      V2.clampBudget m = volts * maxAmps) := by
  simp only [V1.clampBudget, V2.clampBudget, volts, maxAmps, minSitePowerW] at *
  refine ⟨fun h1 h2 => ?_, fun h1 => ?_, fun h1 => ?_⟩ <;>
    constructor <;> split_ifs <;> omega

/-- C2 witness: the amended clamp behaviour at the concrete raw budgets
-5 W (negative, above the floor) for both variants. -/
theorem c2_output_clamp_witness :
    V1.clampBudget (-5) = 0 ∧ V2.clampBudget (-5) = -5 :=
  (c2_output_clamp (-5) (by decide)).2.1 (by decide)

/-- `i32` is the identity on values representable in int32, matching Go. -/
theorem i32_eq_of_range (x : Int) (hlo : -(2 ^ 31) ≤ x) (hhi : x < 2 ^ 31) :
    i32 x = x := by
  unfold i32
  omega

/-- The temperature-derated ceiling never exceeds `math.MaxInt32`. -/
theorem maxPowerForTemp_le (t : Int) : maxPowerForTemp t ≤ maxInt32 := by
  simp only [maxPowerForTemp, maxPowerForTempAux, tempClamps, volts, maxInt32]
  split_ifs <;> omega

/-- First-variant ceiling bound. -/
theorem ceiling_le_v1 (c : V1.controller) : V1.ceiling c ≤ maxInt32 := by
  unfold V1.ceiling
  split
  · exact maxPowerForTemp_le _
  · exact le_refl _

/-- Second-variant ceiling bound. -/
theorem ceiling_le_v2 (c : V2.controller) : V2.ceiling c ≤ maxInt32 := by
  unfold V2.ceiling
  split
  · exact maxPowerForTemp_le _
  · exact le_refl _

/-- C3 counterexample: a second-variant state satisfying every condition of
the claim (strategy observed and auto, load-reduction not observed-true, no
battery-export breach, exported solar observed at 2500 W, strictly below the
ceiling) on which `computeMaxPower` returns the ceiling `math.MaxInt32`, not
2500: the EV-battery hint rule (level observed at 40% < 60%) fires before the
solar-export rule. -/
def cEvHint : V2.controller :=
  { V2.initController with
    seenValues := observedStrategy ||| observedExportedSolar ||| observedEVBattery
    controllerStrategy := V2.strategy.strategyAuto
    exportedSolarW := 2500
    evBatteryLevelPercent := 40 }

/-- C3 counterexample theorem: on `cEvHint` all of the claim's hypotheses
hold, yet the result is `maxInt32`, not the exported-solar value 2500. -/
theorem c3_counterexample :
    V2.seen cEvHint [observedStrategy] = true ∧
    cEvHint.controllerStrategy = V2.strategy.strategyAuto ∧
    (V2.seen cEvHint [observedLR] && cEvHint.loadReductionEnabled) = false ∧
    (V2.seen cEvHint [observedBattery] && decide (cEvHint.exportedBatteryW > 200)) = false ∧
    V2.seen cEvHint [observedExportedSolar] = true ∧
    cEvHint.exportedSolarW = 2500 ∧
    2500 < V2.ceiling cEvHint ∧
    V2.computeMaxPower cEvHint 12 = maxInt32 ∧
    (maxInt32 = (2500 : Int) → False) := by decide

/-- C3 amended: under strategy auto (called solar in the first variant), with
load-reduction not observed-true, no observed battery-export above 200 W, and
exported solar observed at an int32-representable X strictly below the
ceiling, `computeMaxPower` returns exactly X — provided, in the variant with
the EV-battery hint, that the EV battery level is additionally not observed
below 60%. -/
theorem c3_solar_export_ceiling :
    (∀ (c : V1.controller) (nowHour nowMinute X : Int),
      V1.seen c [observedStrategy] = true →
      c.controllerStrategy = V1.strategy.strategySolar →
      (V1.seen c [observedLR] && c.loadReductionEnabled) = false →
      (V1.seen c [observedBattery] && decide (c.exportedBatteryW > 200)) = false →
      V1.seen c [observedExportedSolar] = true →
      c.exportedSolarW = X →
      -(2 ^ 31) ≤ X →
      X < V1.ceiling c →
      V1.computeMaxPower c nowHour nowMinute = X) ∧
    (∀ (c : V2.controller) (nowHour X : Int),
      V2.seen c [observedStrategy] = true →
      c.controllerStrategy = V2.strategy.strategyAuto →
      (V2.seen c [observedLR] && c.loadReductionEnabled) = false →
      (V2.seen c [observedBattery] && decide (c.exportedBatteryW > 200)) = false →
      (V2.seen c [observedEVBattery] && decide (c.evBatteryLevelPercent < 60)) = false →
      V2.seen c [observedExportedSolar] = true →
      c.exportedSolarW = X →
      -(2 ^ 31) ≤ X →
      X < V2.ceiling c →
      V2.computeMaxPower c nowHour = X) := by
  constructor
  · intro c nowHour nowMinute X hseen hstrat hLR hBat hES hX hlo hhi
    have hub : X < 2 ^ 31 := by
      have hle := ceiling_le_v1 c
      simp only [maxInt32] at hle
      omega
    have hi : i32 c.exportedSolarW = X := by
      rw [hX]
      exact i32_eq_of_range X hlo hub
    simp only [V1.computeMaxPower, hseen, hstrat, hLR, hBat, hES, hi]
    simp only [Bool.not_true, Bool.false_eq_true, if_false, if_true, reduceCtorEq]
    rw [if_neg (not_lt.mpr hhi.le)]
  · intro c nowHour X hseen hstrat hLR hBat hEV hES hX hlo hhi
    have hub : X < 2 ^ 31 := by
      have hle := ceiling_le_v2 c
      simp only [maxInt32] at hle
      omega
    have hi : i32 c.exportedSolarW = X := by
      rw [hX]
      exact i32_eq_of_range X hlo hub
    simp only [V2.computeMaxPower, hseen, hstrat, hLR, hBat, hEV, hES, hi]
    simp only [Bool.not_true, Bool.false_eq_true, if_false, if_true, reduceCtorEq,
      false_and, and_false]
    rw [if_neg (not_lt.mpr hhi.le)]

/-- First-variant witness state for C3: strategy solar and exported solar
2500 W observed, nothing else. -/
def cSolarV1 : V1.controller :=
  { V1.initController with
    seenValues := observedStrategy ||| observedExportedSolar
    controllerStrategy := V1.strategy.strategySolar
    exportedSolarW := 2500 }

/-- Second-variant witness state for C3: strategy auto and exported solar
2500 W observed, nothing else. -/
def cSolarV2 : V2.controller :=
  { V2.initController with
    seenValues := observedStrategy ||| observedExportedSolar
    controllerStrategy := V2.strategy.strategyAuto
    exportedSolarW := 2500 }

/-- C3 witness: both variants return exactly the observed 2500 W of exported
solar on the concrete witness states. -/
theorem c3_solar_export_ceiling_witness :
    V1.computeMaxPower cSolarV1 12 0 = 2500 ∧ V2.computeMaxPower cSolarV2 12 = 2500 :=
  ⟨c3_solar_export_ceiling.1 cSolarV1 12 0 2500 (by decide) rfl (by decide) (by decide)
      (by decide) rfl (by decide) (by decide),
    c3_solar_export_ceiling.2 cSolarV2 12 2500 (by decide) rfl (by decide) (by decide)
      (by decide) (by decide) rfl (by decide) (by decide)⟩

/-- C4: with strategy observed and equal to auto (called solar in the first
variant) and the load-reduction flag observed true, `computeMaxPower` returns
0 regardless of every solar, exported-solar, battery-export and EV-battery
value; the full-speed and time-window overrides, checked earlier, do not
fire under this strategy. -/
theorem c4_load_reduction_zeroing :
    (∀ (c : V1.controller) (nowHour nowMinute : Int),
      V1.seen c [observedStrategy] = true →
      c.controllerStrategy = V1.strategy.strategySolar →
      V1.seen c [observedLR] = true →
      c.loadReductionEnabled = true →
      V1.computeMaxPower c nowHour nowMinute = 0) ∧
    (∀ (c : V2.controller) (nowHour : Int),
      V2.seen c [observedStrategy] = true →
      c.controllerStrategy = V2.strategy.strategyAuto →
      V2.seen c [observedLR] = true →
      c.loadReductionEnabled = true →
      V2.computeMaxPower c nowHour = 0) := by
  constructor
  · intro c nowHour nowMinute hseen hstrat hLR hen
    simp [V1.computeMaxPower, hseen, hstrat, hLR, hen]
  · intro c nowHour hseen hstrat hLR hen
    simp [V2.computeMaxPower, hseen, hstrat, hLR, hen]

/-- First-variant witness state for C4: strategy solar and load reduction
observed, the flag enabled, with nonzero solar values present. -/
def cLRv1 : V1.controller :=
  { V1.initController with
    seenValues := observedStrategy ||| observedLR ||| observedExportedSolar
    controllerStrategy := V1.strategy.strategySolar
    loadReductionEnabled := true
    exportedSolarW := 5000 }

/-- Second-variant witness state for C4. -/
def cLRv2 : V2.controller :=
  { V2.initController with
    seenValues := observedStrategy ||| observedLR ||| observedExportedSolar |||
      observedEVBattery
    controllerStrategy := V2.strategy.strategyAuto
    loadReductionEnabled := true
    exportedSolarW := 5000
    evBatteryLevelPercent := 40 }

/-- C4 witness: both variants return 0 on the concrete load-reduction states
even with 5000 W of exported solar observed (and, in the second variant, an
EV battery observed at 40%). -/
theorem c4_load_reduction_zeroing_witness :
    V1.computeMaxPower cLRv1 12 0 = 0 ∧ V2.computeMaxPower cLRv2 12 = 0 :=
  ⟨c4_load_reduction_zeroing.1 cLRv1 12 0 (by decide) rfl (by decide) rfl,
    c4_load_reduction_zeroing.2 cLRv2 12 (by decide) rfl (by decide) rfl⟩

/-- C5: in the first variant, with strategy observed and equal to off-peak,
a wall-clock time whose minute-of-day lies inside the peak window
`[peakRatesStartMinute, peakRatesEndMinute)` makes `computeMaxPower` return
0, and a time outside the window makes it return the temperature-clamped
ceiling — in both cases regardless of the load-reduction, battery-export and
solar fields, which are never consulted under this strategy. -/
theorem c5_offpeak_window (c : V1.controller) (nowHour nowMinute : Int)
    (hseen : V1.seen c [observedStrategy] = true)
    (hstrat : c.controllerStrategy = V1.strategy.strategyOffpeak) :
    (c.peakRatesStartMinute ≤ nowHour * 60 + nowMinute →
      nowHour * 60 + nowMinute < c.peakRatesEndMinute →
      V1.computeMaxPower c nowHour nowMinute = 0) ∧
    (¬(c.peakRatesStartMinute ≤ nowHour * 60 + nowMinute ∧
        nowHour * 60 + nowMinute < c.peakRatesEndMinute) →
      V1.computeMaxPower c nowHour nowMinute = V1.ceiling c) := by
  constructor
  · intro h1 h2
    have hop : V1.isOffPeak c nowHour nowMinute = false := by
      simp only [V1.isOffPeak, Bool.not_eq_false', Bool.and_eq_true, decide_eq_true_eq]
      exact ⟨h1, h2⟩
    simp [V1.computeMaxPower, hseen, hstrat, hop]
  · intro hout
    have hop : V1.isOffPeak c nowHour nowMinute = true := by
      simp only [V1.isOffPeak, Bool.not_eq_true', Bool.and_eq_false_iff,
        decide_eq_false_iff_not, ge_iff_le, not_le, not_lt]
      omega
    simp [V1.computeMaxPower, hseen, hstrat, hop]

/-- Witness state for C5: strategy off-peak observed, default peak window
16:00-21:00, with load reduction observed true to show it is ignored. -/
def cOffpeakC : V1.controller :=
  { V1.initController with
    seenValues := observedStrategy ||| observedLR
    controllerStrategy := V1.strategy.strategyOffpeak
    loadReductionEnabled := true }

/-- C5 witness: at 17:00 (inside the default 16:00-21:00 peak window) the
budget is 0; at 10:00 (outside) it is the ceiling. -/
theorem c5_offpeak_window_witness :
    V1.computeMaxPower cOffpeakC 17 0 = 0 ∧
    V1.computeMaxPower cOffpeakC 10 0 = V1.ceiling cOffpeakC :=
  ⟨(c5_offpeak_window cOffpeakC 17 0 (by decide) rfl).1 (by decide) (by decide),
    (c5_offpeak_window cOffpeakC 10 0 (by decide) rfl).2 (by decide)⟩

/-- C8: `updateSensor` (the body of every setter) always sets the observed
bit (bitwise OR, so an unset bit flips to set on first call); with an equal
new value it does not signal the decision loop and leaves the stored value as
is; with a different new value it stores it and signals. Moreover, every
setter operation of the first variant signals exactly when its argument
differs from the currently stored value of its field. -/
theorem c8_change_only_wakeup {T : Type} [DecidableEq T] (oldValue newValue : T)
    (seenValues obs : Nat) :
    ((updateSensor oldValue newValue seenValues obs).seenValues = seenValues ||| obs ∧
    (newValue = oldValue →
      (updateSensor oldValue newValue seenValues obs).signalled = false ∧
      (updateSensor oldValue newValue seenValues obs).value = oldValue) ∧
    (newValue ≠ oldValue →
      (updateSensor oldValue newValue seenValues obs).signalled = true ∧
      (updateSensor oldValue newValue seenValues obs).value = newValue)) ∧
    (∀ (op : V1.Op) (c : V1.controller),
      (V1.applyOp op c).snd = !V1.opUnchanged op c) := by
  constructor
  · unfold updateSensor
    by_cases h : oldValue = newValue
    · subst h
      simp
    · rw [if_pos h]
      exact ⟨rfl, fun hc => absurd hc.symm h, fun _ => ⟨rfl, rfl⟩⟩
  · intro op c
    cases op <;>
      (simp [V1.applyOp, V1.opUnchanged, V1.SetPowerwallBatteryLevelPercent,
        V1.SetExportedBatteryW, V1.SetExportedSolarW, V1.SetSolarW, V1.SetLoadW,
        V1.SetOperationMode, V1.SetLoadReduction, V1.SetControllerStrategy,
        V1.SetEVSETemp, V1.SetEVSECurrent, V1.SetEVConnected, updateSensor, eq_comm]
       <;> split <;> simp_all)

/-- C8 witness: a repeated identical reading (5 then 5 again) sets the
observed bit but does not signal. -/
theorem c8_change_only_wakeup_witness :
    (updateSensor (5 : Int) 5 0 observedLR).seenValues = 0 ||| observedLR ∧
    (updateSensor (5 : Int) 5 0 observedLR).signalled = false ∧
    (V1.applyOp (V1.Op.opSolarW 0) V1.initController).snd
      = !V1.opUnchanged (V1.Op.opSolarW 0) V1.initController :=
  ⟨(c8_change_only_wakeup 5 5 0 observedLR).1.1,
    ((c8_change_only_wakeup 5 5 0 observedLR).1.2.1 rfl).1,
    (c8_change_only_wakeup (5 : Int) 5 0 observedLR).2
      (V1.Op.opSolarW 0) V1.initController⟩

/-- C9 evaluation at the failing input: on a fresh controller, `SetLoadW`
stores the load value but sets the operation-mode observed bit (256), not the
load bit (64); symmetrically `SetOperationMode` sets the load bit. The claim
(and the spec sentence it comes from) says each setter sets its own field's
observed bit; the identifiers `observedLoad`/`observedOperationMode` in the
source show the two arguments are swapped. -/
theorem c9_setter_bit_swap :
    ((V1.SetLoadW V1.initController 100).fst).loadW = 100 ∧
    ((V1.SetLoadW V1.initController 100).fst).seenValues = observedOperationMode ∧
    (((V1.SetLoadW V1.initController 100).fst).seenValues = observedLoad → False) ∧
    ((V1.SetOperationMode V1.initController OperationMode.autonomous).fst).seenValues
      = observedLoad ∧
    (observedOperationMode = observedLoad → False) := by decide

/-- `updateSensor` ORs the observed bit into the mask in both branches. -/
theorem updateSensor_seenValues {T : Type} [DecidableEq T] (o n : T) (s b : Nat) :
    (updateSensor o n s b).seenValues = s ||| b := by
  unfold updateSensor
  split <;> rfl

/-- Bits already fully present in a mask survive ORing in more bits. -/
theorem land_mask_of_lor (a b mask : Nat) (h : a &&& mask = mask) :
    (a ||| b) &&& mask = mask := by
  apply Nat.eq_of_testBit_eq
  intro i
  have hh := congrArg (fun x => x.testBit i) h
  simp only [Nat.testBit_land, Nat.testBit_lor] at hh ⊢
  cases ha : a.testBit i <;> cases hb : b.testBit i <;> cases hm : mask.testBit i <;>
    simp_all

/-- C10: each setter ORs exactly its bit into the observed-set, and over any
sequence of setter operations an already-observed bit pattern stays observed
— no controller operation ever clears an observed bit. -/
theorem c10_observed_only_grows :
    (∀ (op : V1.Op) (c : V1.controller),
      ((V1.applyOp op c).fst).seenValues = c.seenValues ||| V1.opBit op) ∧
    (∀ (ops : List V1.Op) (c : V1.controller) (mask : Nat),
      c.seenValues &&& mask = mask →
      (V1.applyOps ops c).seenValues &&& mask = mask) := by
  have hstep : ∀ (op : V1.Op) (c : V1.controller),
      ((V1.applyOp op c).fst).seenValues = c.seenValues ||| V1.opBit op := by
    intro op c
    cases op <;>
      simp [V1.applyOp, V1.opBit, V1.SetPowerwallBatteryLevelPercent,
        V1.SetExportedBatteryW, V1.SetExportedSolarW, V1.SetSolarW, V1.SetLoadW,
        V1.SetOperationMode, V1.SetLoadReduction, V1.SetControllerStrategy,
        V1.SetEVSETemp, V1.SetEVSECurrent, V1.SetEVConnected, updateSensor_seenValues]
  refine ⟨hstep, ?_⟩
  intro ops
  induction ops with
  | nil =>
    intro c mask h
    simpa [V1.applyOps] using h
  | cons op rest ih =>
    intro c mask h
    have h1 : ((V1.applyOp op c).fst).seenValues &&& mask = mask := by
      rw [hstep]
      exact land_mask_of_lor _ _ _ h
    have h2 := ih ((V1.applyOp op c).fst) mask h1
    simpa [V1.applyOps] using h2

/-- A state with the solar bit already observed, for the C10 witness. -/
def cSolarSeen : V1.controller :=
  { V1.initController with seenValues := observedSolar }

/-- C10 witness: one concrete setter ORs in exactly its bit, and the solar
bit survives a concrete sequence of later setter calls. -/
theorem c10_observed_only_grows_witness :
    ((V1.applyOp (V1.Op.opSolarW 3) V1.initController).fst).seenValues
      = V1.initController.seenValues ||| V1.opBit (V1.Op.opSolarW 3) ∧
    (V1.applyOps [V1.Op.opLoadReduction true, V1.Op.opEVSETemp 470,
      V1.Op.opSolarW 4] cSolarSeen).seenValues &&& observedSolar = observedSolar :=
  ⟨c10_observed_only_grows.1 (V1.Op.opSolarW 3) V1.initController,
    c10_observed_only_grows.2 [V1.Op.opLoadReduction true, V1.Op.opEVSETemp 470,
      V1.Op.opSolarW 4] cSolarSeen observedSolar (by decide)⟩
